import Mathlib

/-!
# rtl_433: the "Test Sensor" decoder (`src/devices/test.c`)

A shallow embedding of `test_callback` and of the data it reads and writes,
followed by theorems about what the decoder accepts and what it emits.

Conventions of the embedding:

* `uint8_t` storage is `Fin 256`; every value read from the buffer is turned
  into a `Nat` at once (`bitbuffer_t.byte`), and all C arithmetic is done on
  `Nat`/`Int` with the conversions `(uint16_t)`, `(int16_t)`, `(uint8_t)`
  written out as explicit reductions modulo `2^16` and `2^8`.
* `>>` on a negative `int` is the arithmetic shift every supported compiler
  produces (`Int.shiftRight`, i.e. floor division by a power of two), and the
  conversion to `int16_t` is two's-complement wrap-around.
* `temp/18.0` is a `double` in C; the embedding keeps the exact rational
  `temp / 18`, of which the C value is the nearest `double`.
* `local_time_str(0, time_str)` reads the clock; its result is the parameter
  `time_str` of `test_callback`.
* `data_acquired_handler(data)` hands a record to the output sink; the
  embedding returns the list of records handed over next to the return value.
* The `debug_output` branch only prints to `stderr`; it produces no record and
  does not change the return value, and is left out.
-/

namespace Rtl433

set_option autoImplicit false

/-! ## Data model -/

/-- Modelled from the spec: `bitbuffer.h` is not among the sources.  The spec
calls the bit buffer a fixed-capacity container of bit rows, each row exposing
its own bit length, together with the total row count.  `test_callback` reads
`bitbuffer->bb[r][c]` (a `uint8_t`) and `bitbuffer->bits_per_row[r]`; the row
slots and length slots exist for every index below the capacity whether or not
the row is in use, which a total function of the index reflects.  The decoder
only reads rows 0 and 1 and columns 0 to 4. -/
structure bitbuffer_t where
  /-- number of rows in use -/
  num_rows : Nat
  /-- declared bit length of every row slot -/
  bits_per_row : Nat → Nat
  /-- stored bytes of every row slot -/
  bb : Nat → Nat → Fin 256

/-- The expression `bb[r][c]`, promoted to `int` as C does before arithmetic. -/
def bitbuffer_t.byte (bitbuffer : bitbuffer_t) (r c : Nat) : Nat :=
  (bitbuffer.bb r c).val

/-- Modelled from the spec: `data.h` is not among the sources.  A value of a
structured record is a string, an integer or a floating-point number (kept as
an exact rational here). -/
inductive data_value where
  | DATA_STRING (s : String)
  | DATA_INT (i : Int)
  | DATA_DOUBLE (q : ℚ)
  deriving DecidableEq

/-- Modelled from the spec: one entry of a structured record, as one group of
arguments of `data_make`: key, human-readable label, optional printf-style
format (`DATA_FORMAT`), and the typed value. -/
structure data_field where
  key : String
  pretty_key : String
  format : Option String
  value : data_value
  deriving DecidableEq

/-- Modelled from the spec: a structured record is an ordered mapping from
field names to typed values, here the list of fields in the order `data_make`
received them. -/
abbrev data_t := List data_field

/-- The keys of a record, in order. -/
def data_t.keys (d : data_t) : List String := d.map data_field.key

/-- The value stored under a key, if any (first match). -/
def data_t.lookup (d : data_t) (k : String) : Option data_value :=
  (d.find? (fun f => f.key == k)).map data_field.value

/-! ## C integer conversions -/

/-- Conversion `(uint8_t)x` of a non-negative `int`. -/
def to_uint8 (x : Nat) : Nat := x % 2 ^ 8

/-- Conversion `(uint16_t)x` of a non-negative `int`. -/
def to_uint16 (x : Nat) : Nat := x % 2 ^ 16

/-- Conversion `(int16_t)x` of an `int`: two's-complement wrap-around. -/
def to_int16 (x : Int) : Int := (x + 2 ^ 15) % 2 ^ 16 - 2 ^ 15

/-! ## `test_callback` -/

/-- The local variables of `test_callback` after field extraction
(`test.c` lines 38-42 and 58). -/
structure test_locals where
  id : Nat
  chksum : Nat
  battery_low : Nat
  channel : Nat
  temp : Int
  humidity : Nat
  deriving DecidableEq

/-- Line 68: `temp = (int16_t)((uint16_t)(bb[1][2] << 8) | (bb[1][3]&0xF0));` -/
def temp_assembled (b2 b3 : Nat) : Int :=
  to_int16 ((to_uint16 (b2 <<< 8) ||| (b3 &&& 0xF0) : Nat) : Int)

/-- Line 69, right-hand side: `(temp >> 4) - 1221`, computed in `int`; the
shift is `Int.shiftRight`, the arithmetic shift. -/
def temp_offset (temp : Int) : Int := (temp >>> (4 : Nat)) - 1221

/-- Line 72, the expression under the cast:
`((bb[1][3]&0x0F)*10)+(bb[1][4]>>4)`. -/
def humidity_expr (b3 b4 : Nat) : Nat := ((b3 &&& 0x0F) * 10) + (b4 >>> 4)

/-- Field extraction, `test.c` lines 55-72.  In C `>>` binds tighter than
`&`, so line 58 computes `bb[1][1] & (0xF0 >> 4)`. -/
def test_extract (bitbuffer : bitbuffer_t) : test_locals :=
  let bb := bitbuffer.byte
  let id := to_uint8 (bb 1 0)
  let chksum := to_uint8 (bb 1 1 &&& (0xF0 >>> 4))
  let battery_low := to_uint8 (bb 1 1 &&& 0x04)
  let channel := to_uint8 (bb 1 4 &&& 0x03)
  let temp := temp_assembled (bb 1 2) (bb 1 3)
  let temp := to_int16 (temp_offset temp)
  let humidity := to_uint8 (humidity_expr (bb 1 3) (bb 1 4))
  { id := id, chksum := chksum, battery_low := battery_low, channel := channel,
    temp := temp, humidity := humidity }

/-- The `data_make` call of lines 75-82. -/
def test_record (time_str : String) (v : test_locals) : data_t :=
  [ ⟨"time", "", none, .DATA_STRING time_str⟩,
    ⟨"model", "", none, .DATA_STRING "Test Sensor"⟩,
    ⟨"id", "House Code", none, .DATA_INT v.id⟩,
    ⟨"battery", "Battery", none, .DATA_STRING (if v.battery_low ≠ 0 then "LOW" else "OK")⟩,
    ⟨"channel", "Channel", none, .DATA_INT v.channel⟩,
    ⟨"temperature_C", "Temperature", some "%.01f C", .DATA_DOUBLE ((v.temp : ℚ) / 18)⟩,
    ⟨"humidity", "Humidity", some "%u %%", .DATA_INT v.humidity⟩ ]

/-- The decoder `test_callback` (`test.c` lines 27-88): the return value and
the records handed to `data_acquired_handler`, in order. -/
def test_callback (time_str : String) (bitbuffer : bitbuffer_t) : Int × List data_t :=
  if bitbuffer.byte 0 0 = 0x00 ∧ bitbuffer.bits_per_row 1 = 40 then
    let data := test_record time_str (test_extract bitbuffer)
    (1, [data])
  else
    (0, [])

/-- A buffer given by its row count, its row lengths and its row bytes; slots
beyond the lists hold zero, as in a cleared buffer. -/
def bitbuffer_of (num_rows : Nat) (lens : List Nat) (rows : List (List (Fin 256))) :
    bitbuffer_t :=
  { num_rows := num_rows
    bits_per_row := fun r => lens.getD r 0
    bb := fun r c => (rows.getD r []).getD c 0 }

/-- The 12-bit temperature field of row 1: byte 2 supplies the high eight
bits and the high nibble of byte 3 the low four. -/
def temp_field (bitbuffer : bitbuffer_t) : Nat :=
  bitbuffer.byte 1 2 * 16 + bitbuffer.byte 1 3 / 16

/-- A 12-bit field read as a two's-complement number. -/
def sign_extend12 (T : Nat) : Int := if T < 2048 then (T : Int) else (T : Int) - 4096

/-- One bit step of a CRC-8 with the given polynomial, most significant bit
first, on an 8-bit remainder. -/
def crc8_step (polynomial remainder : Nat) : Nat :=
  if remainder &&& 0x80 ≠ 0 then ((remainder <<< 1) % 256) ^^^ polynomial
  else (remainder <<< 1) % 256

/-- CRC-8 of a message, most significant bit first. -/
def crc8 (message : List Nat) (polynomial init : Nat) : Nat :=
  message.foldl (fun remainder byte => (crc8_step polynomial)^[8] (remainder ^^^ byte)) init

/-- Modelled from the spec: the checksum routine of the look-alike protocol
(the Rubicson decoder) is not among the sources, and the spec only calls it a
checksum over the candidate row of a 40-bit, checksum-bearing frame.  This
instance, a CRC-8 with polynomial 0x31 and initial value 0x6C over the first
seven nibbles with the last two nibbles as check value, stands for it in the
concrete example below; the theorem about `test_callback` is stated for every
checksum predicate. -/
def lookalike_crc_ok (row : Nat → Fin 256) : Bool :=
  let b := fun c => (row c).val
  crc8 [b 0, b 1, b 2, b 3 &&& 0xF0, (((b 3 &&& 0x0F) <<< 4) ||| ((b 4 &&& 0xF0) >>> 4))]
    0x31 0x6C == 0

/-- A two-row buffer whose row 1 carries a frame with a consistent look-alike
checksum. -/
def lookalike_buffer : bitbuffer_t :=
  bitbuffer_of 2 [40, 40] [[0x00, 0x00, 0x00, 0x00, 0x00], [0x4B, 0x80, 0x0D, 0x78, 0xF0]]

/-- A buffer with a single row in use whose second length slot still reads 40. -/
def stale_slot_buffer : bitbuffer_t :=
  bitbuffer_of 1 [40, 40] [[0x00, 0x12, 0x34, 0x56, 0x78], [0x4B, 0xF4, 0x7A, 0xBE, 0x32]]

/-- A cleared buffer with one 36-bit row in use. -/
def single_row_buffer : bitbuffer_t :=
  bitbuffer_of 1 [36] [[0x00, 0x12, 0x34, 0x56, 0x70]]

/-- A two-row buffer whose rows are both 36 bits long. -/
def short_rows_buffer : bitbuffer_t :=
  bitbuffer_of 2 [36, 36] [[0x00, 0x12, 0x34, 0x56, 0x70], [0x4B, 0xF4, 0x7A, 0xBE, 0x30]]

/-- The value stored under key `k` in the first record handed to the sink by
a run of the decoder. -/
def first_record_value (out : Int × List data_t) (k : String) : Option data_value :=
  out.2.head?.bind (fun d => d.lookup k)

/-- The byte layout of a data row as the round-trip property documents it:
byte 0 is the identifier; bit 2 of byte 1 is the battery-low flag; byte 2 and
the high nibble of byte 3 hold the 12-bit value `t + 1221`; the low nibble of
byte 3 is the tens digit of the humidity and the high nibble of byte 4 its
units digit; the low two bits of byte 4 are the channel label minus 1.  The
bits the layout does not mention are left free. -/
def row_encodes (row : Nat → Fin 256) (id : Nat) (battery_low : Bool) (channel : Nat)
    (t : Int) (humidity : Nat) : Prop :=
  (row 0).val = id ∧
  (row 1).val.testBit 2 = battery_low ∧
  (((row 2).val * 16 + (row 3).val / 16 : Nat) : Int) = t + 1221 ∧
  (row 3).val % 16 = humidity / 10 ∧
  (row 4).val / 16 = humidity % 10 ∧
  (row 4).val % 4 = channel - 1

instance (row : Nat → Fin 256) (id : Nat) (battery_low : Bool) (channel : Nat)
    (t : Int) (humidity : Nat) : Decidable (row_encodes row id battery_low channel t humidity) := by
  unfold row_encodes
  infer_instance

/-- The data row of the concrete scenario, after a row that starts with 0x00. -/
def scenario_buffer : bitbuffer_t :=
  bitbuffer_of 2 [40, 40] [[0x00, 0x00, 0x00, 0x00, 0x00], [0x4B, 0xF4, 0x7A, 0xBE, 0x32]]

/-- An encoded reading: identifier 75, battery not low, channel label 2,
21.5 degrees (`215 + 1221 = 0x59C`), humidity 45. -/
def encoded_buffer : bitbuffer_t :=
  bitbuffer_of 2 [40, 40] [[0x00, 0x00, 0x00, 0x00, 0x00], [0x4B, 0xF0, 0x59, 0xC4, 0x51]]

/-- An accepted buffer whose byte 4 of row 1 has both channel bits clear. -/
def channel_zero_buffer : bitbuffer_t :=
  bitbuffer_of 2 [40, 40] [[0x00, 0x00, 0x00, 0x00, 0x00], [0x4B, 0xF0, 0x59, 0xC4, 0x50]]

/-- An accepted buffer whose humidity nibbles are both 0xF. -/
def humidity_max_buffer : bitbuffer_t :=
  bitbuffer_of 2 [40, 40] [[0x00, 0x00, 0x00, 0x00, 0x00], [0x4B, 0xF0, 0x59, 0xCF, 0xF1]]

/-- An accepted buffer with the battery-low bit set and all other bits of
byte 1 clear. -/
def battery_low_buffer : bitbuffer_t :=
  bitbuffer_of 2 [40, 40] [[0x00, 0x00, 0x00, 0x00, 0x00], [0x4B, 0x04, 0x59, 0xC4, 0x51]]

/-- The array `output_fields` (`test.c` lines 90-99): the entries before the
terminating `NULL`, in order. -/
def output_fields : List String :=
  ["time", "model", "id", "battery", "channel", "temperature_C", "humidity"]

/-- The record type `r_device` (`rtl_433_devices.h` lines 83-93).  The `float`
limits are kept as exact rationals; the callback takes the clock reading next to
the buffer, as `test_callback` does in this embedding. -/
structure r_device where
  name : String
  modulation : Nat
  short_limit : ℚ
  long_limit : ℚ
  reset_limit : ℚ
  json_callback : String → bitbuffer_t → Int × List data_t
  disabled : Nat
  demod_arg : Nat
  fields : List String

/-- The descriptor `test` (`test.c` lines 101-111).  The value of the constant
`OOK_PULSE_PPM_RAW` is declared in `rtl_433.h`, which is not among the sources,
and is taken as a parameter. -/
def test (OOK_PULSE_PPM_RAW : Nat) : r_device :=
  { name := "Test Sensor"
    modulation := OOK_PULSE_PPM_RAW
    short_limit := 2400
    long_limit := 5000
    reset_limit := 8000
    json_callback := test_callback
    disabled := 0
    demod_arg := 0
    fields := output_fields }

/-- The list `DEVICES` (`rtl_433_devices.h` lines 6-80): the argument of every
`DECL(...)` entry, in order. -/
def DEVICES : List String :=
  [
    "silvercrest", "rubicson", "prologue", "waveman",
    "steffen", "elv_em1000", "elv_ws2000", "lacrossetx",
    "template", "acurite_rain_gauge", "acurite_th", "oregon_scientific",
    "mebus433", "intertechno", "newkaku", "alectov1",
    "cardin", "fineoffset_WH2", "nexus", "ambient_weather",
    "calibeur_RF104", "X10_RF", "DSC", "brennenstuhl_rcs_2044",
    "gt_wt_02", "danfoss_CFR", "ec3k", "valeo",
    "chuango", "generic_remote", "tfa_twin_plus_303049", "fineoffset_wh1080",
    "wt450", "lacrossews", "esperanza_ews", "efergy_e2_classic",
    "kw9015b", "generic_temperature_sensor", "acurite_txr", "acurite_986",
    "hideki_ts04", "oil_watchman", "current_cost", "emontx",
    "ht680", "s3318p", "akhan_100F14", "quhwa",
    "oregon_scientific_v1", "proove", "bresser_3ch", "springfield",
    "oregon_scientific_sl109h", "acurite_606", "tfa_pool_thermometer", "kedsum",
    "blyss", "steelmate", "schraeder", "lightwave_rf",
    "elro_db286a", "efergy_optical", "hondaremote", "template",
    "fineoffset_XC0400", "radiohead_ask", "kerui", "fineoffset_wh1050",
    "honeywell", "maverick_et73x", "rftech", "lacrosse_TX141TH_Bv2",
    "test", "acurite_00275rm" ]

/-- Modelled from the spec: `bitbuffer.h` and the demodulator are not among
the sources.  The spec calls a row an ordered sequence of bits stored
compactly; bit `i` of row `r` is taken from byte `i / 8` of the row, the first
bit of a byte in its most significant position. -/
def bitbuffer_t.bit (bitbuffer : bitbuffer_t) (r i : Nat) : Bool :=
  (bitbuffer.byte r (i / 8)).testBit (7 - i % 8)

/-- Two buffers that have the same row count and the same declared bit length
for every row slot, and that agree on every bit within those declared lengths. -/
def agree_within_lengths (a b : bitbuffer_t) : Prop :=
  a.num_rows = b.num_rows ∧
  (∀ r, a.bits_per_row r = b.bits_per_row r) ∧
  (∀ r i, i < a.bits_per_row r → a.bit r i = b.bit r i)

/-- A two-row buffer whose row 0 has declared length 0 and a stored first byte
of 0x00. -/
def empty_row0_buffer : bitbuffer_t :=
  bitbuffer_of 2 [0, 40] [[0x00, 0x00, 0x00, 0x00, 0x00], [0x4B, 0xF0, 0x59, 0xC4, 0x51]]

/-- The same buffer within the declared lengths, with a stored first byte of
0x80 in the empty row 0. -/
def empty_row0_dirty_buffer : bitbuffer_t :=
  bitbuffer_of 2 [0, 40] [[0x80, 0x00, 0x00, 0x00, 0x00], [0x4B, 0xF0, 0x59, 0xC4, 0x51]]

/-- A two-row buffer whose row 0 is 8 bits long; the bytes of row 0 after the
first lie beyond its declared length. -/
def short_row0_buffer : bitbuffer_t :=
  bitbuffer_of 2 [8, 40] [[0x00, 0xAA, 0xBB, 0xCC, 0xDD], [0x4B, 0xF0, 0x59, 0xC4, 0x51]]

/-- The same buffer within the declared lengths, with other bytes beyond the
declared length of row 0. -/
def short_row0_other_buffer : bitbuffer_t :=
  bitbuffer_of 2 [8, 40] [[0x00, 0x11, 0x22, 0x33, 0x44], [0x4B, 0xF0, 0x59, 0xC4, 0x51]]

/-- An accepted buffer whose temperature field has the top bit set:
byte 2 of row 1 is 0x80, the 12-bit field is `0x800 = 2048`. -/
def hot_buffer : bitbuffer_t :=
  bitbuffer_of 2 [40, 40] [[0x00, 0x00, 0x00, 0x00, 0x00], [0x4B, 0xF0, 0x80, 0x04, 0x51]]

/-- An accepted three-row buffer that agrees with `scenario_buffer` on byte 0,
bit 2 of byte 1 and bytes 2 to 4 of row 1, and differs in the other bits of
byte 1, in row 0 after its first byte, and in having a third row. -/
def scenario_variant_buffer : bitbuffer_t :=
  bitbuffer_of 3 [40, 40, 40]
    [[0x00, 0xDE, 0xAD, 0xBE, 0xEF], [0x4B, 0x0F, 0x7A, 0xBE, 0x32],
     [0x12, 0x34, 0x56, 0x78, 0x9A]]

/-! ## Basic facts about the embedding -/

theorem byte_lt (bitbuffer : bitbuffer_t) (r c : Nat) : bitbuffer.byte r c < 256 :=
  (bitbuffer.bb r c).isLt

theorem land_0F (x : Nat) : x &&& 0x0F = x % 16 := Nat.and_pow_two_sub_one_eq_mod x 4

theorem land_03 (x : Nat) : x &&& 0x03 = x % 4 := Nat.and_pow_two_sub_one_eq_mod x 2

theorem shr_4 (x : Nat) : x >>> 4 = x / 16 := Nat.shiftRight_eq_div_pow x 4

set_option maxRecDepth 100000 in
theorem land_F0_fin : ∀ b : Fin 256, b.val &&& 0xF0 = b.val / 16 * 16 := by decide

set_option maxRecDepth 100000 in
theorem land_04_fin : ∀ b : Fin 256, b.val &&& 0x04 = 4 * (b.val / 4 % 2) := by decide

set_option maxRecDepth 100000 in
theorem testBit_2_fin : ∀ b : Fin 256, (b.val.testBit 2 = true ↔ b.val &&& 0x04 ≠ 0) := by
  decide

theorem shl8_lor (a b : Nat) (hb : b < 256) : (a <<< 8) ||| b = a * 256 + b := by
  have h := @Nat.mul_add_lt_is_or 8 b hb a
  rw [Nat.shiftLeft_eq, Nat.mul_comm a (2 ^ 8), ← h]

/-- Line 68 in closed form: the two bytes are glued together and the result is
read as a 16-bit two's-complement number. -/
theorem temp_assembled_eq (b2 b3 : Nat) (h2 : b2 < 256) (h3 : b3 < 256) :
    temp_assembled b2 b3 =
      if b2 < 128 then ((b2 * 256 + b3 / 16 * 16 : Nat) : Int)
      else ((b2 * 256 + b3 / 16 * 16 : Nat) : Int) - 65536 := by
  have hF0 : b3 &&& 0xF0 = b3 / 16 * 16 := land_F0_fin ⟨b3, h3⟩
  have hs : to_uint16 (b2 <<< 8) = b2 <<< 8 := by
    unfold to_uint16
    rw [Nat.shiftLeft_eq]
    omega
  unfold temp_assembled
  rw [hs, hF0, shl8_lor _ _ (by omega)]
  unfold to_int16
  split <;> omega

/-- Lines 68-69 in closed form, before the value is stored back into `temp`. -/
theorem temp_offset_assembled (b2 b3 : Nat) (h2 : b2 < 256) (h3 : b3 < 256) :
    temp_offset (temp_assembled b2 b3) = sign_extend12 (b2 * 16 + b3 / 16) - 1221 := by
  rw [temp_assembled_eq b2 b3 h2 h3]
  unfold temp_offset sign_extend12
  split <;> split <;> rw [Int.shiftRight_eq_div_pow] <;> omega

/-- Storing a value of the `int16_t` range into an `int16_t` keeps it. -/
theorem to_int16_of_range (x : Int) (hlo : -32768 ≤ x) (hhi : x ≤ 32767) : to_int16 x = x := by
  unfold to_int16
  omega

theorem to_uint8_of_lt (x : Nat) (h : x < 256) : to_uint8 x = x := by
  unfold to_uint8
  omega

theorem sign_extend12_range (T : Nat) (h : T < 4096) :
    -2048 ≤ sign_extend12 T ∧ sign_extend12 T ≤ 2047 := by
  unfold sign_extend12
  split <;> omega

theorem temp_field_lt (bitbuffer : bitbuffer_t) : temp_field bitbuffer < 4096 := by
  have h2 := byte_lt bitbuffer 1 2
  have h3 := byte_lt bitbuffer 1 3
  unfold temp_field
  omega

/-! ## The extracted fields in closed form -/

theorem test_extract_id (bitbuffer : bitbuffer_t) :
    (test_extract bitbuffer).id = bitbuffer.byte 1 0 := by
  simp only [test_extract]
  exact to_uint8_of_lt _ (byte_lt bitbuffer 1 0)

theorem test_extract_battery_low (bitbuffer : bitbuffer_t) :
    (test_extract bitbuffer).battery_low = bitbuffer.byte 1 1 &&& 0x04 := by
  simp only [test_extract]
  have h := land_04_fin (bitbuffer.bb 1 1)
  apply to_uint8_of_lt
  unfold bitbuffer_t.byte
  omega

theorem test_extract_channel (bitbuffer : bitbuffer_t) :
    (test_extract bitbuffer).channel = bitbuffer.byte 1 4 % 4 := by
  simp only [test_extract]
  rw [land_03]
  apply to_uint8_of_lt
  omega

theorem test_extract_temp (bitbuffer : bitbuffer_t) :
    (test_extract bitbuffer).temp = sign_extend12 (temp_field bitbuffer) - 1221 := by
  simp only [test_extract]
  rw [temp_offset_assembled _ _ (byte_lt bitbuffer 1 2) (byte_lt bitbuffer 1 3)]
  have h := sign_extend12_range _ (temp_field_lt bitbuffer)
  unfold temp_field at h
  exact to_int16_of_range _ (by omega) (by omega)

theorem humidity_expr_eq (b3 b4 : Nat) : humidity_expr b3 b4 = b3 % 16 * 10 + b4 / 16 := by
  unfold humidity_expr
  rw [land_0F, shr_4]

theorem test_extract_humidity (bitbuffer : bitbuffer_t) :
    (test_extract bitbuffer).humidity = bitbuffer.byte 1 3 % 16 * 10 + bitbuffer.byte 1 4 / 16 := by
  simp only [test_extract]
  rw [humidity_expr_eq]
  have h4 := byte_lt bitbuffer 1 4
  apply to_uint8_of_lt
  omega

/-- The accepting branch: both conditions of line 48-49 hold. -/
theorem test_callback_accept (time_str : String) (bitbuffer : bitbuffer_t)
    (h0 : bitbuffer.byte 0 0 = 0x00) (h40 : bitbuffer.bits_per_row 1 = 40) :
    test_callback time_str bitbuffer =
      (1, [test_record time_str (test_extract bitbuffer)]) := by
  unfold test_callback
  rw [if_pos ⟨h0, h40⟩]

/-- The rejecting branch: one of the conditions of line 48-49 fails. -/
theorem test_callback_reject (time_str : String) (bitbuffer : bitbuffer_t)
    (h : ¬ (bitbuffer.byte 0 0 = 0x00 ∧ bitbuffer.bits_per_row 1 = 40)) :
    test_callback time_str bitbuffer = (0, []) := by
  unfold test_callback
  rw [if_neg h]

/-- A run that returns 1 took the accepting branch. -/
theorem test_callback_of_returns_one (time_str : String) (bitbuffer : bitbuffer_t)
    (h : (test_callback time_str bitbuffer).1 = 1) :
    bitbuffer.byte 0 0 = 0x00 ∧ bitbuffer.bits_per_row 1 = 40 := by
  by_contra hc
  rw [test_callback_reject time_str bitbuffer hc] at h
  exact absurd h (by decide)

/-- The first record of an accepting run, field by field. -/
theorem first_record_value_accept (time_str : String) (bitbuffer : bitbuffer_t)
    (h : (test_callback time_str bitbuffer).1 = 1) (k : String) :
    first_record_value (test_callback time_str bitbuffer) k =
      (test_record time_str (test_extract bitbuffer)).lookup k := by
  obtain ⟨h0, h40⟩ := test_callback_of_returns_one time_str bitbuffer h
  rw [test_callback_accept time_str bitbuffer h0 h40]
  rfl

theorem lookup_id (time_str : String) (v : test_locals) :
    (test_record time_str v).lookup "id" = some (.DATA_INT v.id) := rfl

theorem lookup_battery (time_str : String) (v : test_locals) :
    (test_record time_str v).lookup "battery" =
      some (.DATA_STRING (if v.battery_low ≠ 0 then "LOW" else "OK")) := rfl

theorem lookup_channel (time_str : String) (v : test_locals) :
    (test_record time_str v).lookup "channel" = some (.DATA_INT v.channel) := rfl

theorem lookup_temperature_C (time_str : String) (v : test_locals) :
    (test_record time_str v).lookup "temperature_C" =
      some (.DATA_DOUBLE ((v.temp : ℚ) / 18)) := rfl

theorem lookup_humidity (time_str : String) (v : test_locals) :
    (test_record time_str v).lookup "humidity" = some (.DATA_INT v.humidity) := rfl

theorem test_record_keys (time_str : String) (v : test_locals) :
    (test_record time_str v).keys =
      ["time", "model", "id", "battery", "channel", "temperature_C", "humidity"] := rfl

/-- The battery-low variable is non-zero exactly when bit 2 of byte 1 is set. -/
theorem battery_low_ne_zero_iff (bitbuffer : bitbuffer_t) :
    (test_extract bitbuffer).battery_low ≠ 0 ↔ (bitbuffer.byte 1 1).testBit 2 = true := by
  rw [test_extract_battery_low]
  exact (testBit_2_fin (bitbuffer.bb 1 1)).symm

/-- The assembled 16-bit value shifted right by four is the 12-bit field read
as a two's-complement number. -/
theorem temp_assembled_shift (bitbuffer : bitbuffer_t) :
    (temp_assembled (bitbuffer.byte 1 2) (bitbuffer.byte 1 3)) >>> (4 : Nat) =
      sign_extend12 (temp_field bitbuffer) := by
  have h := temp_offset_assembled _ _ (byte_lt bitbuffer 1 2) (byte_lt bitbuffer 1 3)
  unfold temp_offset at h
  unfold temp_field
  omega

/-- Two bytes with the same eight bits are equal. -/
theorem byte_eq_of_bits_eq (x y : Nat) (hx : x < 256) (hy : y < 256)
    (h : ∀ j, j < 8 → x.testBit (7 - j) = y.testBit (7 - j)) : x = y := by
  apply Nat.eq_of_testBit_eq
  intro i
  by_cases hi : i < 8
  · have hj := h (7 - i) (by omega)
    rwa [show 7 - (7 - i) = i by omega] at hj
  · have hp : 2 ^ 8 ≤ 2 ^ i := Nat.pow_le_pow_right (by decide) (by omega)
    rw [Nat.testBit_lt_two_pow (by omega), Nat.testBit_lt_two_pow (by omega)]

/-- Two buffers whose rows 1 have the same first 40 bits have the same first
five bytes in row 1. -/
theorem row1_bytes_eq_of_bits_eq (a b : bitbuffer_t)
    (h : ∀ i, i < 40 → a.bit 1 i = b.bit 1 i) (c : Nat) (hc : c < 5) :
    a.byte 1 c = b.byte 1 c := by
  apply byte_eq_of_bits_eq _ _ (byte_lt a 1 c) (byte_lt b 1 c)
  intro j hj
  have hbit := h (8 * c + j) (by omega)
  unfold bitbuffer_t.bit at hbit
  rwa [show (8 * c + j) / 8 = c by omega, show (8 * c + j) % 8 = j by omega] at hbit

/-- The extracted fields are a function of bytes 0 to 4 of row 1. -/
theorem test_extract_congr (a b : bitbuffer_t)
    (h : ∀ c, c < 5 → a.byte 1 c = b.byte 1 c) : test_extract a = test_extract b := by
  simp only [test_extract, h 0 (by decide), h 1 (by decide), h 2 (by decide),
    h 3 (by decide), h 4 (by decide)]

/-- Two records agree under every key but `time` when the locals they are built
from agree on what `data_make` reads. -/
theorem test_record_lookup_congr (time_str time_str2 : String) (v w : test_locals)
    (hid : v.id = w.id) (hbat : v.battery_low ≠ 0 ↔ w.battery_low ≠ 0)
    (hch : v.channel = w.channel) (htemp : v.temp = w.temp)
    (hhum : v.humidity = w.humidity) (k : String) (hk : k ≠ "time") :
    (test_record time_str v).lookup k = (test_record time_str2 w).lookup k := by
  have hb : (if v.battery_low ≠ 0 then "LOW" else "OK") =
      (if w.battery_low ≠ 0 then "LOW" else "OK") := by
    by_cases hv : v.battery_low ≠ 0
    · rw [if_pos hv, if_pos (hbat.mp hv)]
    · rw [if_neg hv, if_neg (fun hw => hv (hbat.mpr hw))]
  have hkey : ("time" == k) = false := beq_eq_false_iff_ne.mpr (fun e => hk e.symm)
  simp only [data_t.lookup, test_record, List.find?_cons, hkey, hid, hb, hch, htemp, hhum]

/-- The outcome of the decoder depends on the buffer only through the stored
first byte of row 0, the declared length of row 1 and, when that length is 40,
the 40 bits of row 1. -/
theorem test_callback_congr (time_str time_str2 : String) (a b : bitbuffer_t)
    (hlen : a.bits_per_row 1 = b.bits_per_row 1)
    (hbits : ∀ i, i < a.bits_per_row 1 → a.bit 1 i = b.bit 1 i)
    (h00 : a.byte 0 0 = b.byte 0 0) :
    (test_callback time_str a).1 = (test_callback time_str2 b).1 ∧
      (test_callback time_str a).2.length = (test_callback time_str2 b).2.length ∧
      (∀ k, k ≠ "time" →
        first_record_value (test_callback time_str a) k =
          first_record_value (test_callback time_str2 b) k) := by
  by_cases hc : a.byte 0 0 = 0x00 ∧ a.bits_per_row 1 = 40
  · have hcb : b.byte 0 0 = 0x00 ∧ b.bits_per_row 1 = 40 := ⟨h00 ▸ hc.1, hlen ▸ hc.2⟩
    have hx : test_extract a = test_extract b :=
      test_extract_congr a b (row1_bytes_eq_of_bits_eq a b (fun i hi => hbits i (by omega)))
    rw [test_callback_accept time_str a hc.1 hc.2, test_callback_accept time_str2 b hcb.1 hcb.2,
      hx]
    refine ⟨rfl, rfl, fun k hk => ?_⟩
    exact test_record_lookup_congr time_str time_str2 _ _ rfl Iff.rfl rfl rfl rfl k hk
  · have hcb : ¬ (b.byte 0 0 = 0x00 ∧ b.bits_per_row 1 = 40) := by
      rw [← h00, ← hlen]
      exact hc
    rw [test_callback_reject time_str a hc, test_callback_reject time_str2 b hcb]
    exact ⟨rfl, rfl, fun _ _ => rfl⟩

/-- Line 68 keeps the 16 bits it assembles: modulo `2^16` the value of `temp`
is byte 2 followed by the high nibble of byte 3. -/
theorem temp_assembled_emod (b2 b3 : Nat) (h2 : b2 < 256) (h3 : b3 < 256) :
    temp_assembled b2 b3 % 65536 = ((b2 * 256 + b3 / 16 * 16 : Nat) : Int) := by
  rw [temp_assembled_eq b2 b3 h2 h3]
  split <;> omega

/-! ## Claims -/

/-- C1: the decoder is meant to reject a candidate row whose look-alike
checksum is consistent, but it never computes a checksum: whatever predicate
`lookalike_ok` stands for the look-alike protocol's check, a buffer whose row 0
starts with 0x00 and whose row 1 is 40 bits long is accepted with one record
even when row 1 passes that check. -/
theorem test_callback_accepts_checksum_consistent_row
    (lookalike_ok : (Nat → Fin 256) → Bool) (time_str : String) (bitbuffer : bitbuffer_t)
    (h0 : bitbuffer.byte 0 0 = 0x00) (h40 : bitbuffer.bits_per_row 1 = 40)
    (hchk : lookalike_ok (bitbuffer.bb 1) = true) :
    lookalike_ok (bitbuffer.bb 1) = true ∧
      test_callback time_str bitbuffer =
        (1, [test_record time_str (test_extract bitbuffer)]) := by
  refine ⟨hchk, ?_⟩
  unfold test_callback
  rw [if_pos ⟨h0, h40⟩]

set_option maxRecDepth 100000 in
/-- C1, at a concrete frame: row 1 of `lookalike_buffer` has a consistent
CRC-8, and the decoder returns 1 and emits a record for it. -/
theorem test_callback_accepts_checksum_consistent_row_witness :
    lookalike_crc_ok (lookalike_buffer.bb 1) = true ∧
      test_callback "2016-01-01 00:00:00" lookalike_buffer =
        (1, [test_record "2016-01-01 00:00:00" (test_extract lookalike_buffer)]) :=
  test_callback_accepts_checksum_consistent_row lookalike_crc_ok "2016-01-01 00:00:00"
    lookalike_buffer (by decide) (by decide) (by decide)

/-- C2, as stated, fails: a buffer with a single row in use whose second
length slot reads 40 is accepted, with one record emitted. -/
theorem test_callback_one_row_stale_slot_accepted :
    stale_slot_buffer.num_rows < 2 ∧
      (test_callback "2016-01-01 00:00:00" stale_slot_buffer).1 = 1 ∧
      (test_callback "2016-01-01 00:00:00" stale_slot_buffer).2.length = 1 := by
  decide

/-- C2, amended: a buffer with fewer than two rows in use whose unused row
slots have declared bit length 0, as in a cleared buffer, is rejected: the
decoder returns 0 and emits no record. -/
theorem test_callback_fewer_than_two_rows (time_str : String) (bitbuffer : bitbuffer_t)
    (hrows : bitbuffer.num_rows < 2)
    (hclear : ∀ r, bitbuffer.num_rows ≤ r → bitbuffer.bits_per_row r = 0) :
    test_callback time_str bitbuffer = (0, []) := by
  have h1 : bitbuffer.bits_per_row 1 = 0 := hclear 1 (by omega)
  apply test_callback_reject
  rintro ⟨-, h40⟩
  omega

/-- C2, amended, at a cleared buffer with one row in use that starts with 0x00. -/
theorem test_callback_fewer_than_two_rows_witness :
    single_row_buffer.num_rows < 2 ∧
      test_callback "2016-01-01 00:00:00" single_row_buffer = (0, []) :=
  ⟨by decide,
   test_callback_fewer_than_two_rows "2016-01-01 00:00:00" single_row_buffer (by decide)
    (by
      intro r hr
      have hr1 : 1 ≤ r := hr
      obtain ⟨k, rfl⟩ : ∃ k, r = k + 1 := ⟨r - 1, by omega⟩
      rfl)⟩

/-- C3: when the declared bit length of row 1 is not 40 the decoder returns 0
and emits no record, whatever the buffer holds otherwise. -/
theorem test_callback_row1_length_not_40 (time_str : String) (bitbuffer : bitbuffer_t)
    (h : bitbuffer.bits_per_row 1 ≠ 40) :
    test_callback time_str bitbuffer = (0, []) := by
  apply test_callback_reject
  rintro ⟨-, h40⟩
  exact h h40

/-- C3, at a two-row buffer whose rows are 36 bits long. -/
theorem test_callback_row1_length_not_40_witness :
    short_rows_buffer.bits_per_row 1 ≠ 40 ∧
      test_callback "2016-01-01 00:00:00" short_rows_buffer = (0, []) :=
  ⟨by decide,
   test_callback_row1_length_not_40 "2016-01-01 00:00:00" short_rows_buffer (by decide)⟩

/-- C4, as stated, fails: the row `[0x4B, 0xF0, 0x59, 0xC4, 0x51]` encodes
identifier 75, battery not low, channel label 2, 21.5 degrees and humidity 45
by the documented layout, and the buffer is accepted, but the emitted channel
is 1, not the label 2, and the emitted temperature is 215/18, which is not
within 0.1 of 21.5. -/
theorem round_trip_fails_on_channel_and_temperature :
    row_encodes (encoded_buffer.bb 1) 75 false 2 215 45 ∧
      (test_callback "2016-01-01 00:00:00" encoded_buffer).1 = 1 ∧
      first_record_value (test_callback "2016-01-01 00:00:00" encoded_buffer) "channel" =
        some (.DATA_INT 1) ∧
      first_record_value (test_callback "2016-01-01 00:00:00" encoded_buffer) "temperature_C" =
        some (.DATA_DOUBLE (215 / 18)) ∧
      ¬ (|(215 / 18 : ℚ) - 215 / 10| ≤ 1 / 10) := by
  have hacc : (test_callback "2016-01-01 00:00:00" encoded_buffer).1 = 1 := by decide
  have hx : test_extract encoded_buffer =
      { id := 75, chksum := 0, battery_low := 0, channel := 1, temp := 215, humidity := 45 } := by
    decide
  refine ⟨by decide, hacc, ?_, ?_, ?_⟩
  · rw [first_record_value_accept _ _ hacc, lookup_channel, hx]
    rfl
  · rw [first_record_value_accept _ _ hacc, lookup_temperature_C, hx]
    norm_num
  · norm_num [abs_le]

/-- C4, amended: for a tuple encoded by the documented layout into row 1 of a
buffer whose row 0 starts with 0x00 and whose row 1 is 40 bits long, with
channel label in 1..3, `t + 1221` in 0..2047 and humidity in 0..99, the decoder
returns 1 and emits one record that carries the identifier, the battery status
(LOW iff the flag is set), the channel label minus 1, the temperature `t / 18`
and the humidity. -/
theorem round_trip_raw_channel_scale_18 (time_str : String) (bitbuffer : bitbuffer_t)
    (id : Nat) (battery_low : Bool) (channel : Nat) (t : Int) (humidity : Nat)
    (h0 : bitbuffer.byte 0 0 = 0x00) (h40 : bitbuffer.bits_per_row 1 = 40)
    (_hch : 1 ≤ channel ∧ channel ≤ 3) (ht : 0 ≤ t + 1221 ∧ t + 1221 < 2048)
    (_hhum : humidity ≤ 99)
    (henc : row_encodes (bitbuffer.bb 1) id battery_low channel t humidity) :
    (test_callback time_str bitbuffer).1 = 1 ∧
      (test_callback time_str bitbuffer).2.length = 1 ∧
      first_record_value (test_callback time_str bitbuffer) "id" = some (.DATA_INT id) ∧
      first_record_value (test_callback time_str bitbuffer) "battery" =
        some (.DATA_STRING (if battery_low = true then "LOW" else "OK")) ∧
      first_record_value (test_callback time_str bitbuffer) "channel" =
        some (.DATA_INT ((channel - 1 : Nat) : Int)) ∧
      first_record_value (test_callback time_str bitbuffer) "temperature_C" =
        some (.DATA_DOUBLE ((t : ℚ) / 18)) ∧
      first_record_value (test_callback time_str bitbuffer) "humidity" =
        some (.DATA_INT humidity) := by
  obtain ⟨e0, e1, e2, e3, e4, e5⟩ := henc
  have hrun := test_callback_accept time_str bitbuffer h0 h40
  have hacc : (test_callback time_str bitbuffer).1 = 1 := by rw [hrun]
  have hid : (test_extract bitbuffer).id = id := by
    rw [test_extract_id]
    exact e0
  have hbat : ((test_extract bitbuffer).battery_low ≠ 0) ↔ battery_low = true := by
    rw [battery_low_ne_zero_iff, ← e1]
    rfl
  have hchan : (test_extract bitbuffer).channel = channel - 1 := by
    rw [test_extract_channel]
    exact e5
  have htemp : (test_extract bitbuffer).temp = t := by
    rw [test_extract_temp]
    have hT : ((temp_field bitbuffer : Nat) : Int) = t + 1221 := e2
    unfold sign_extend12
    split <;> omega
  have hh : (test_extract bitbuffer).humidity = humidity := by
    rw [test_extract_humidity]
    have e3n : bitbuffer.byte 1 3 % 16 = humidity / 10 := e3
    have e4n : bitbuffer.byte 1 4 / 16 = humidity % 10 := e4
    omega
  refine ⟨hacc, by rw [hrun]; rfl, ?_, ?_, ?_, ?_, ?_⟩
  · rw [first_record_value_accept _ _ hacc, lookup_id, hid]
  · rw [first_record_value_accept _ _ hacc, lookup_battery]
    by_cases hb : battery_low = true
    · rw [if_pos (hbat.mpr hb), if_pos hb]
    · rw [if_neg (fun hn => hb (hbat.mp hn)), if_neg hb]
  · rw [first_record_value_accept _ _ hacc, lookup_channel, hchan]
  · rw [first_record_value_accept _ _ hacc, lookup_temperature_C, htemp]
  · rw [first_record_value_accept _ _ hacc, lookup_humidity, hh]

/-- C4, amended, at the encoded reading 75 / not low / channel 2 / 21.5 / 45. -/
theorem round_trip_raw_channel_scale_18_witness :
    (test_callback "2016-01-01 00:00:00" encoded_buffer).1 = 1 ∧
      (test_callback "2016-01-01 00:00:00" encoded_buffer).2.length = 1 ∧
      first_record_value (test_callback "2016-01-01 00:00:00" encoded_buffer) "id" =
        some (.DATA_INT (75 : Nat)) ∧
      first_record_value (test_callback "2016-01-01 00:00:00" encoded_buffer) "battery" =
        some (.DATA_STRING (if false = true then "LOW" else "OK")) ∧
      first_record_value (test_callback "2016-01-01 00:00:00" encoded_buffer) "channel" =
        some (.DATA_INT ((2 - 1 : Nat) : Int)) ∧
      first_record_value (test_callback "2016-01-01 00:00:00" encoded_buffer) "temperature_C" =
        some (.DATA_DOUBLE (((215 : Int) : ℚ) / 18)) ∧
      first_record_value (test_callback "2016-01-01 00:00:00" encoded_buffer) "humidity" =
        some (.DATA_INT (45 : Nat)) :=
  round_trip_raw_channel_scale_18 "2016-01-01 00:00:00" encoded_buffer 75 false 2 215 45
    (by decide) (by decide) (by decide) (by decide) (by decide) (by decide)

/-- C5, as stated, fails: for the scenario row `[0x4B, 0xF4, 0x7A, 0xBE, 0x32]`
the decoder returns 1 with id 75, but bit 2 of 0xF4 is set, so the battery
status is "LOW", and the emitted channel is `0x32 & 0x03 = 2`; the record does
not have battery "OK" and channel 3. -/
theorem scenario_not_battery_ok_channel_3 :
    ¬ ((test_callback "2016-01-01 00:00:00" scenario_buffer).1 = 1 ∧
        first_record_value (test_callback "2016-01-01 00:00:00" scenario_buffer) "id" =
          some (.DATA_INT 75) ∧
        first_record_value (test_callback "2016-01-01 00:00:00" scenario_buffer) "battery" =
          some (.DATA_STRING "OK") ∧
        first_record_value (test_callback "2016-01-01 00:00:00" scenario_buffer) "channel" =
          some (.DATA_INT 3)) := by
  decide

/-- C5, amended: for a buffer whose row 0 starts with 0x00 and whose row 1
is 40 bits long with bytes `[0x4B, 0xF4, 0x7A, 0xBE, 0x32]`, the decoder
returns 1 and the emitted record has id 75, battery "LOW" and channel 2. -/
theorem scenario_decodes_low_battery_channel_2 (time_str : String) (bitbuffer : bitbuffer_t)
    (h0 : bitbuffer.byte 0 0 = 0x00) (h40 : bitbuffer.bits_per_row 1 = 40)
    (hrow : (List.range 5).map (bitbuffer.byte 1) = [0x4B, 0xF4, 0x7A, 0xBE, 0x32]) :
    (test_callback time_str bitbuffer).1 = 1 ∧
      first_record_value (test_callback time_str bitbuffer) "id" = some (.DATA_INT 75) ∧
      first_record_value (test_callback time_str bitbuffer) "battery" =
        some (.DATA_STRING "LOW") ∧
      first_record_value (test_callback time_str bitbuffer) "channel" =
        some (.DATA_INT 2) := by
  have hrun := test_callback_accept time_str bitbuffer h0 h40
  have hacc : (test_callback time_str bitbuffer).1 = 1 := by rw [hrun]
  simp only [List.range, List.range.loop, List.map_cons, List.map_nil, List.cons.injEq,
    and_true] at hrow
  obtain ⟨b0, b1, -, -, b4⟩ := hrow
  have hid : (test_extract bitbuffer).id = 75 := by rw [test_extract_id, b0]
  have hbat : (test_extract bitbuffer).battery_low = 4 := by
    rw [test_extract_battery_low, b1]
    rfl
  have hchan : (test_extract bitbuffer).channel = 2 := by rw [test_extract_channel, b4]
  refine ⟨hacc, ?_, ?_, ?_⟩
  · rw [first_record_value_accept _ _ hacc, lookup_id, hid]
    rfl
  · rw [first_record_value_accept _ _ hacc, lookup_battery, hbat]
    rfl
  · rw [first_record_value_accept _ _ hacc, lookup_channel, hchan]
    rfl

/-- C5, amended, at the scenario buffer itself. -/
theorem scenario_decodes_low_battery_channel_2_witness :
    (test_callback "2016-01-01 00:00:00" scenario_buffer).1 = 1 ∧
      first_record_value (test_callback "2016-01-01 00:00:00" scenario_buffer) "id" =
        some (.DATA_INT 75) ∧
      first_record_value (test_callback "2016-01-01 00:00:00" scenario_buffer) "battery" =
        some (.DATA_STRING "LOW") ∧
      first_record_value (test_callback "2016-01-01 00:00:00" scenario_buffer) "channel" =
        some (.DATA_INT 2) :=
  scenario_decodes_low_battery_channel_2 "2016-01-01 00:00:00" scenario_buffer
    (by decide) (by decide) (by decide)

/-- C6, as stated, fails: for the accepted scenario buffer the 12-bit field is
`0x7AB = 1963`, so `T - 1221 = 742`, and the emitted temperature is 742/18,
not 742/10. -/
theorem temperature_not_scaled_by_10 :
    (test_callback "2016-01-01 00:00:00" scenario_buffer).1 = 1 ∧
      (temp_assembled (scenario_buffer.byte 1 2) (scenario_buffer.byte 1 3)) >>> (4 : Nat)
        - 1221 = 742 ∧
      first_record_value (test_callback "2016-01-01 00:00:00" scenario_buffer)
        "temperature_C" = some (.DATA_DOUBLE (742 / 18)) ∧
      (742 / 18 : ℚ) ≠ 742 / 10 := by
  have hacc : (test_callback "2016-01-01 00:00:00" scenario_buffer).1 = 1 := by decide
  have hx : (test_extract scenario_buffer).temp = 742 := by decide
  refine ⟨hacc, by decide, ?_, by norm_num⟩
  rw [first_record_value_accept _ _ hacc, lookup_temperature_C, hx]
  norm_num

/-- C6, amended: for every accepted buffer the emitted temperature_C equals
`(T - 1221) / 18` as an exact rational, where `T` is the 12-bit field of byte 2
and the high nibble of byte 3 of row 1 taken as a sign-extended 16-bit quantity
shifted right by 4, that is, the field read as a 12-bit signed number. -/
theorem temperature_signed_scaled_by_18 (time_str : String) (bitbuffer : bitbuffer_t)
    (h : (test_callback time_str bitbuffer).1 = 1) :
    first_record_value (test_callback time_str bitbuffer) "temperature_C" =
        some (.DATA_DOUBLE
          ((((temp_assembled (bitbuffer.byte 1 2) (bitbuffer.byte 1 3)) >>> (4 : Nat)
              - 1221 : Int) : ℚ) / 18)) ∧
      (temp_assembled (bitbuffer.byte 1 2) (bitbuffer.byte 1 3)) >>> (4 : Nat) =
        sign_extend12 (temp_field bitbuffer) := by
  refine ⟨?_, temp_assembled_shift bitbuffer⟩
  rw [first_record_value_accept _ _ h, lookup_temperature_C, test_extract_temp,
    temp_assembled_shift]

/-- C6, amended, at the scenario buffer. -/
theorem temperature_signed_scaled_by_18_witness :
    first_record_value (test_callback "2016-01-01 00:00:00" scenario_buffer) "temperature_C" =
        some (.DATA_DOUBLE
          ((((temp_assembled (scenario_buffer.byte 1 2) (scenario_buffer.byte 1 3)) >>> (4 : Nat)
              - 1221 : Int) : ℚ) / 18)) ∧
      (temp_assembled (scenario_buffer.byte 1 2) (scenario_buffer.byte 1 3)) >>> (4 : Nat) =
        sign_extend12 (temp_field scenario_buffer) :=
  temperature_signed_scaled_by_18 "2016-01-01 00:00:00" scenario_buffer (by decide)

/-- C7, as stated, fails: an accepted buffer whose byte 4 of row 1 is 0x50 has
both channel bits clear and the emitted channel is 0, not `0 + 1`. -/
theorem channel_zero_emitted :
    (test_callback "2016-01-01 00:00:00" channel_zero_buffer).1 = 1 ∧
      channel_zero_buffer.byte 1 4 &&& 0x03 = 0 ∧
      first_record_value (test_callback "2016-01-01 00:00:00" channel_zero_buffer) "channel" =
        some (.DATA_INT 0) := by
  decide

/-- C7, amended: for every accepted buffer the emitted channel is byte 4 of
row 1 AND 0x03, unchanged, a number between 0 and 3. -/
theorem channel_is_raw_low_bits (time_str : String) (bitbuffer : bitbuffer_t)
    (h : (test_callback time_str bitbuffer).1 = 1) :
    first_record_value (test_callback time_str bitbuffer) "channel" =
        some (.DATA_INT ((bitbuffer.byte 1 4 &&& 0x03 : Nat) : Int)) ∧
      bitbuffer.byte 1 4 &&& 0x03 ≤ 3 := by
  constructor
  · rw [first_record_value_accept _ _ h, lookup_channel, test_extract_channel, land_03]
  · rw [land_03]
    omega

/-- C7, amended, at the scenario buffer (byte 4 is 0x32, channel 2). -/
theorem channel_is_raw_low_bits_witness :
    first_record_value (test_callback "2016-01-01 00:00:00" scenario_buffer) "channel" =
        some (.DATA_INT ((scenario_buffer.byte 1 4 &&& 0x03 : Nat) : Int)) ∧
      scenario_buffer.byte 1 4 &&& 0x03 ≤ 3 :=
  channel_is_raw_low_bits "2016-01-01 00:00:00" scenario_buffer (by decide)

/-- C8, as stated, fails: an accepted buffer whose humidity nibbles are both
0xF yields humidity 165, which is above 99. -/
theorem humidity_above_99 :
    (test_callback "2016-01-01 00:00:00" humidity_max_buffer).1 = 1 ∧
      first_record_value (test_callback "2016-01-01 00:00:00" humidity_max_buffer) "humidity" =
        some (.DATA_INT 165) ∧
      ¬ ((165 : Int) ≤ 99) := by
  decide

/-- C8, amended: for every accepted buffer the emitted humidity is
`10 * (low nibble of byte 3 of row 1) + (high nibble of byte 4 of row 1)`, a
number between 0 and 165; it is at most 99 when both nibbles are decimal
digits. -/
theorem humidity_from_nibbles (time_str : String) (bitbuffer : bitbuffer_t)
    (h : (test_callback time_str bitbuffer).1 = 1) :
    first_record_value (test_callback time_str bitbuffer) "humidity" =
        some (.DATA_INT ((10 * (bitbuffer.byte 1 3 % 16) + bitbuffer.byte 1 4 / 16 : Nat) : Int)) ∧
      10 * (bitbuffer.byte 1 3 % 16) + bitbuffer.byte 1 4 / 16 ≤ 165 ∧
      (bitbuffer.byte 1 3 % 16 ≤ 9 → bitbuffer.byte 1 4 / 16 ≤ 9 →
        10 * (bitbuffer.byte 1 3 % 16) + bitbuffer.byte 1 4 / 16 ≤ 99) := by
  have h4 := byte_lt bitbuffer 1 4
  refine ⟨?_, by omega, by omega⟩
  rw [first_record_value_accept _ _ h, lookup_humidity, test_extract_humidity,
    Nat.mul_comm (bitbuffer.byte 1 3 % 16) 10]

/-- C8, amended, at the encoded reading with humidity 45. -/
theorem humidity_from_nibbles_witness :
    first_record_value (test_callback "2016-01-01 00:00:00" encoded_buffer) "humidity" =
        some (.DATA_INT
          ((10 * (encoded_buffer.byte 1 3 % 16) + encoded_buffer.byte 1 4 / 16 : Nat) : Int)) ∧
      10 * (encoded_buffer.byte 1 3 % 16) + encoded_buffer.byte 1 4 / 16 ≤ 165 ∧
      (encoded_buffer.byte 1 3 % 16 ≤ 9 → encoded_buffer.byte 1 4 / 16 ≤ 9 →
        10 * (encoded_buffer.byte 1 3 % 16) + encoded_buffer.byte 1 4 / 16 ≤ 99) :=
  humidity_from_nibbles "2016-01-01 00:00:00" encoded_buffer (by decide)

/-- C9: for every accepted buffer the emitted id is byte 0 of row 1 unchanged,
the battery status is "LOW" exactly when bit 2 of byte 1 of row 1 is set and
"OK" exactly when it is clear, and two accepted buffers that agree on that bit
get the same battery status whatever the other bits of byte 1 are. -/
theorem id_raw_and_battery_from_bit_2 (time_str time_str2 : String)
    (bitbuffer bitbuffer2 : bitbuffer_t)
    (h : (test_callback time_str bitbuffer).1 = 1)
    (h2 : (test_callback time_str2 bitbuffer2).1 = 1) :
    first_record_value (test_callback time_str bitbuffer) "id" =
        some (.DATA_INT (bitbuffer.byte 1 0)) ∧
      (first_record_value (test_callback time_str bitbuffer) "battery" =
          some (.DATA_STRING "LOW") ↔ (bitbuffer.byte 1 1).testBit 2 = true) ∧
      (first_record_value (test_callback time_str bitbuffer) "battery" =
          some (.DATA_STRING "OK") ↔ (bitbuffer.byte 1 1).testBit 2 = false) ∧
      ((bitbuffer.byte 1 1).testBit 2 = (bitbuffer2.byte 1 1).testBit 2 →
        first_record_value (test_callback time_str bitbuffer) "battery" =
          first_record_value (test_callback time_str2 bitbuffer2) "battery") := by
  have hb := battery_low_ne_zero_iff bitbuffer
  have hb2 := battery_low_ne_zero_iff bitbuffer2
  rw [first_record_value_accept _ _ h, first_record_value_accept _ _ h,
    first_record_value_accept _ _ h2, lookup_id, lookup_battery, lookup_battery,
    test_extract_id]
  refine ⟨rfl, ?_, ?_, ?_⟩
  · by_cases hc : (test_extract bitbuffer).battery_low ≠ 0
    · rw [if_pos hc]
      exact ⟨fun _ => hb.mp hc, fun _ => rfl⟩
    · rw [if_neg hc]
      constructor
      · intro he
        exact absurd he (by decide)
      · intro ht
        exact absurd (hb.mpr ht) hc
  · by_cases hc : (test_extract bitbuffer).battery_low ≠ 0
    · rw [if_pos hc]
      constructor
      · intro he
        exact absurd he (by decide)
      · intro hf
        rw [hb.mp hc] at hf
        exact absurd hf (by decide)
    · rw [if_neg hc]
      refine ⟨fun _ => ?_, fun _ => rfl⟩
      cases ht : (bitbuffer.byte 1 1).testBit 2
      · rfl
      · exact absurd (hb.mpr ht) hc
  · intro hsame
    have hiff : (test_extract bitbuffer).battery_low ≠ 0 ↔
        (test_extract bitbuffer2).battery_low ≠ 0 := by
      rw [hb, hb2, hsame]
    by_cases hc : (test_extract bitbuffer).battery_low ≠ 0
    · rw [if_pos hc, if_pos (hiff.mp hc)]
    · rw [if_neg hc, if_neg (fun hn => hc (hiff.mpr hn))]

/-- C9, at two accepted buffers whose byte 1 is 0xF4 and 0x04: bit 2 is set in
both, every other bit of byte 1 differs or is clear, and both report "LOW". -/
theorem id_raw_and_battery_from_bit_2_witness :
    first_record_value (test_callback "2016-01-01 00:00:00" scenario_buffer) "id" =
        some (.DATA_INT (scenario_buffer.byte 1 0)) ∧
      (first_record_value (test_callback "2016-01-01 00:00:00" scenario_buffer) "battery" =
          some (.DATA_STRING "LOW") ↔ (scenario_buffer.byte 1 1).testBit 2 = true) ∧
      (first_record_value (test_callback "2016-01-01 00:00:00" scenario_buffer) "battery" =
          some (.DATA_STRING "OK") ↔ (scenario_buffer.byte 1 1).testBit 2 = false) ∧
      ((scenario_buffer.byte 1 1).testBit 2 = (battery_low_buffer.byte 1 1).testBit 2 →
        first_record_value (test_callback "2016-01-01 00:00:00" scenario_buffer) "battery" =
          first_record_value (test_callback "2016-01-02 12:30:00" battery_low_buffer)
            "battery") :=
  id_raw_and_battery_from_bit_2 "2016-01-01 00:00:00" "2016-01-02 12:30:00"
    scenario_buffer battery_low_buffer (by decide) (by decide)

/-- C10: for every buffer the decoder yields a return value that is 0 or 1
and equals the number of records handed to the sink; when it returns 1 that is
exactly one record with all seven fields, and when it returns 0 no record at
all was handed over. -/
theorem return_value_counts_records (time_str : String) (bitbuffer : bitbuffer_t) :
    ((test_callback time_str bitbuffer).1 = 0 ∨ (test_callback time_str bitbuffer).1 = 1) ∧
      (test_callback time_str bitbuffer).1 = ((test_callback time_str bitbuffer).2.length : Int) ∧
      ((test_callback time_str bitbuffer).1 = 1 →
        ∃ d, (test_callback time_str bitbuffer).2 = [d] ∧ d.length = 7 ∧
          d.keys = ["time", "model", "id", "battery", "channel", "temperature_C", "humidity"]) ∧
      ((test_callback time_str bitbuffer).1 = 0 → (test_callback time_str bitbuffer).2 = []) := by
  by_cases hc : bitbuffer.byte 0 0 = 0x00 ∧ bitbuffer.bits_per_row 1 = 40
  · rw [test_callback_accept time_str bitbuffer hc.1 hc.2]
    refine ⟨Or.inr rfl, rfl, fun _ => ⟨_, rfl, rfl, rfl⟩, fun h => ?_⟩
    exact absurd (show (1 : Int) = 0 from h) (by decide)
  · rw [test_callback_reject time_str bitbuffer hc]
    refine ⟨Or.inl rfl, rfl, fun h => ?_, fun _ => rfl⟩
    exact absurd (show (0 : Int) = 1 from h) (by decide)

/-- C11: every record the decoder hands over has the keys time, model, id,
battery, channel, temperature_C, humidity, in this order; the fields list of
the `test` descriptor is `output_fields`, which holds these same seven names in
the same order and no others; and the descriptor's callback does emit such a
record for some buffer. -/
theorem record_keys_are_output_fields (OOK_PULSE_PPM_RAW : Nat) (time_str : String)
    (bitbuffer : bitbuffer_t) (d : data_t)
    (hd : d ∈ ((test OOK_PULSE_PPM_RAW).json_callback time_str bitbuffer).2) :
    d.keys = (test OOK_PULSE_PPM_RAW).fields ∧
      (test OOK_PULSE_PPM_RAW).fields = output_fields ∧
      output_fields =
        ["time", "model", "id", "battery", "channel", "temperature_C", "humidity"] ∧
      ∃ b : bitbuffer_t, ((test OOK_PULSE_PPM_RAW).json_callback time_str b).2 ≠ [] := by
  refine ⟨?_, rfl, rfl, ⟨scenario_buffer, ?_⟩⟩
  · change d ∈ (test_callback time_str bitbuffer).2 at hd
    by_cases hc : bitbuffer.byte 0 0 = 0x00 ∧ bitbuffer.bits_per_row 1 = 40
    · rw [test_callback_accept time_str bitbuffer hc.1 hc.2] at hd
      rw [List.mem_singleton.mp hd]
      rfl
    · rw [test_callback_reject time_str bitbuffer hc] at hd
      exact absurd hd (List.not_mem_nil d)
  · change (test_callback time_str scenario_buffer).2 ≠ []
    rw [test_callback_accept time_str scenario_buffer (by decide) (by decide)]
    exact List.cons_ne_nil _ _

/-- C11, at the record emitted for the scenario buffer. -/
theorem record_keys_are_output_fields_witness :
    (test_record "2016-01-01 00:00:00" (test_extract scenario_buffer)).keys = (test 0).fields ∧
      (test 0).fields = output_fields ∧
      output_fields =
        ["time", "model", "id", "battery", "channel", "temperature_C", "humidity"] ∧
      ∃ b : bitbuffer_t, ((test 0).json_callback "2016-01-01 00:00:00" b).2 ≠ [] :=
  record_keys_are_output_fields 0 "2016-01-01 00:00:00" scenario_buffer
    (test_record "2016-01-01 00:00:00" (test_extract scenario_buffer))
    (by
      change _ ∈ (test_callback "2016-01-01 00:00:00" scenario_buffer).2
      rw [test_callback_accept "2016-01-01 00:00:00" scenario_buffer (by decide) (by decide)]
      exact List.mem_singleton.mpr rfl)

/-- C12, as stated, fails: two two-row buffers with row lengths 0 and 40 that
agree on every bit within the declared lengths, and differ only in the stored
first byte of the empty row 0 (0x00 against 0x80), get different results: the
first is accepted with one record, the second is rejected. -/
theorem bits_beyond_row0_length_are_read :
    agree_within_lengths empty_row0_buffer empty_row0_dirty_buffer ∧
      empty_row0_buffer.bits_per_row 0 = 0 ∧
      (test_callback "2016-01-01 00:00:00" empty_row0_buffer).1 = 1 ∧
      (test_callback "2016-01-01 00:00:00" empty_row0_dirty_buffer).1 = 0 := by
  refine ⟨⟨rfl, fun r => rfl, fun r i hi => ?_⟩, rfl, by decide, by decide⟩
  match r, hi with
  | 0, hi => exact absurd hi (Nat.not_lt_zero i)
  | 1, _ => rfl
  | r + 2, hi => exact absurd hi (Nat.not_lt_zero i)

/-- C12, amended: two buffers that have the same row count and the same
declared bit length for every row slot, agree on every bit within those
declared lengths, and also store the same first byte in row 0, get the same
return value, the same number of records and the same record fields apart from
the timestamp. -/
theorem same_result_within_lengths_and_row0_byte (time_str time_str2 : String)
    (a b : bitbuffer_t) (hagree : agree_within_lengths a b)
    (h00 : a.byte 0 0 = b.byte 0 0) :
    (test_callback time_str a).1 = (test_callback time_str2 b).1 ∧
      (test_callback time_str a).2.length = (test_callback time_str2 b).2.length ∧
      (∀ k, k ≠ "time" →
        first_record_value (test_callback time_str a) k =
          first_record_value (test_callback time_str2 b) k) := by
  obtain ⟨-, hlen, hbits⟩ := hagree
  exact test_callback_congr time_str time_str2 a b (hlen 1) (hbits 1) h00

/-- C12, amended, at two accepted buffers whose row 0 is 8 bits long and
whose stored bytes differ beyond that length. -/
theorem same_result_within_lengths_and_row0_byte_witness :
    short_row0_buffer.byte 0 1 ≠ short_row0_other_buffer.byte 0 1 ∧
      (test_callback "2016-01-01 00:00:00" short_row0_buffer).1 =
        (test_callback "2016-01-02 12:30:00" short_row0_other_buffer).1 ∧
      (test_callback "2016-01-01 00:00:00" short_row0_buffer).2.length =
        (test_callback "2016-01-02 12:30:00" short_row0_other_buffer).2.length ∧
      (∀ k, k ≠ "time" →
        first_record_value (test_callback "2016-01-01 00:00:00" short_row0_buffer) k =
          first_record_value (test_callback "2016-01-02 12:30:00" short_row0_other_buffer) k) :=
  ⟨by decide,
   same_result_within_lengths_and_row0_byte "2016-01-01 00:00:00" "2016-01-02 12:30:00"
    short_row0_buffer short_row0_other_buffer
    ⟨rfl, fun r => rfl, fun r i hi => by
      match r, hi with
      | 0, hi =>
        have h8 : i < 8 := hi
        unfold bitbuffer_t.bit
        rw [show i / 8 = 0 by omega]
        rfl
      | 1, _ => rfl
      | 2, _ => rfl
      | r + 3, _ => rfl⟩
    rfl⟩

/-- C13: the variable `chksum` is not the high nibble of byte 1 of row 1.
Line 58 parses as `bb[1][1] & (0xF0 >> 4)`, so `chksum` is the low nibble of
byte 1 for every buffer; for byte 1 equal to 0xF4 it is 4 while `0xF4 >> 4`
is 15. -/
theorem chksum_is_low_nibble :
    (∀ bitbuffer : bitbuffer_t, (test_extract bitbuffer).chksum = bitbuffer.byte 1 1 % 16) ∧
      scenario_buffer.byte 1 1 = 0xF4 ∧
      (test_extract scenario_buffer).chksum = 4 ∧
      scenario_buffer.byte 1 1 >>> 4 = 15 := by
  refine ⟨fun bitbuffer => ?_, by decide, by decide, by decide⟩
  have h := byte_lt bitbuffer 1 1
  simp only [test_extract]
  have hm : (0xF0 >>> 4 : Nat) = 0x0F := by decide
  rw [hm, land_0F]
  apply to_uint8_of_lt
  omega

/-- C14: the emitted temperature is not the unsigned reading of the 12-bit
field when its top bit is set.  For the accepted buffer with byte 2 equal to
0x80 and byte 3 equal to 0x04 the field is 2048; the unsigned formula gives
`(2048 - 1221) / 18 = 827 / 18`, and the decoder emits `-3269 / 18`. -/
theorem temperature_sign_extended_at_0x800 :
    (test_callback "2016-01-01 00:00:00" hot_buffer).1 = 1 ∧
      hot_buffer.byte 1 2 * 16 + (hot_buffer.byte 1 3 >>> 4) = 2048 ∧
      first_record_value (test_callback "2016-01-01 00:00:00" hot_buffer) "temperature_C" =
        some (.DATA_DOUBLE (-3269 / 18)) ∧
      (((hot_buffer.byte 1 2 * 16 + (hot_buffer.byte 1 3 >>> 4) : Nat) : ℚ) - 1221) / 18 ≠
        -3269 / 18 := by
  have hacc : (test_callback "2016-01-01 00:00:00" hot_buffer).1 = 1 := by decide
  have hx : (test_extract hot_buffer).temp = -3269 := by decide
  have hT : hot_buffer.byte 1 2 * 16 + (hot_buffer.byte 1 3 >>> 4) = 2048 := by decide
  refine ⟨hacc, hT, ?_, ?_⟩
  · rw [first_record_value_accept _ _ hacc, lookup_temperature_C, hx]
    norm_num
  · rw [hT]
    norm_num

/-- C15: the decoder returns 1 exactly when byte 0 of row 0 is 0x00 and the
declared bit length of row 1 is 40; any other buffer with the same byte 0 of
row 0 and the same declared length of row 1 gets the same return value,
whatever its row count, its row 0 length and its row contents are. -/
theorem accepted_iff_two_facts (time_str : String) (bitbuffer : bitbuffer_t) :
    ((test_callback time_str bitbuffer).1 = 1 ↔
        (bitbuffer.byte 0 0 = 0x00 ∧ bitbuffer.bits_per_row 1 = 40)) ∧
      (∀ (time_str2 : String) (bitbuffer2 : bitbuffer_t),
        bitbuffer2.byte 0 0 = bitbuffer.byte 0 0 →
        bitbuffer2.bits_per_row 1 = bitbuffer.bits_per_row 1 →
        (test_callback time_str2 bitbuffer2).1 = (test_callback time_str bitbuffer).1) := by
  constructor
  · constructor
    · exact test_callback_of_returns_one time_str bitbuffer
    · intro hc
      rw [test_callback_accept time_str bitbuffer hc.1 hc.2]
  · intro time_str2 bitbuffer2 hb hl
    unfold test_callback
    rw [hb, hl]
    split <;> rfl

/-- C16: for every buffer, the value `(temp >> 4) - 1221` of line 69 lies in
[-3269, 826], coming from a sign-extended 12-bit value in [-2048, 2047], so
storing it into the `int16_t` keeps it; the humidity expression of line 72
lies in [0, 165], so the `uint8_t` cast keeps it; and the stored `temp` and
`humidity` are these very values.  The cast of line 68 keeps the 16 bits it
is given. -/
theorem narrowing_conversions_keep_values (bitbuffer : bitbuffer_t) :
    (-2048 ≤ (temp_assembled (bitbuffer.byte 1 2) (bitbuffer.byte 1 3)) >>> (4 : Nat) ∧
        (temp_assembled (bitbuffer.byte 1 2) (bitbuffer.byte 1 3)) >>> (4 : Nat) ≤ 2047) ∧
      (-3269 ≤ temp_offset (temp_assembled (bitbuffer.byte 1 2) (bitbuffer.byte 1 3)) ∧
        temp_offset (temp_assembled (bitbuffer.byte 1 2) (bitbuffer.byte 1 3)) ≤ 826) ∧
      to_int16 (temp_offset (temp_assembled (bitbuffer.byte 1 2) (bitbuffer.byte 1 3))) =
        temp_offset (temp_assembled (bitbuffer.byte 1 2) (bitbuffer.byte 1 3)) ∧
      (test_extract bitbuffer).temp =
        temp_offset (temp_assembled (bitbuffer.byte 1 2) (bitbuffer.byte 1 3)) ∧
      humidity_expr (bitbuffer.byte 1 3) (bitbuffer.byte 1 4) ≤ 165 ∧
      to_uint8 (humidity_expr (bitbuffer.byte 1 3) (bitbuffer.byte 1 4)) =
        humidity_expr (bitbuffer.byte 1 3) (bitbuffer.byte 1 4) ∧
      (test_extract bitbuffer).humidity =
        humidity_expr (bitbuffer.byte 1 3) (bitbuffer.byte 1 4) ∧
      temp_assembled (bitbuffer.byte 1 2) (bitbuffer.byte 1 3) % 65536 =
        ((bitbuffer.byte 1 2 * 256 + bitbuffer.byte 1 3 / 16 * 16 : Nat) : Int) := by
  have h2 := byte_lt bitbuffer 1 2
  have h3 := byte_lt bitbuffer 1 3
  have h4 := byte_lt bitbuffer 1 4
  have hs := temp_assembled_shift bitbuffer
  have hr := sign_extend12_range _ (temp_field_lt bitbuffer)
  have ho : temp_offset (temp_assembled (bitbuffer.byte 1 2) (bitbuffer.byte 1 3)) =
      sign_extend12 (temp_field bitbuffer) - 1221 :=
    temp_offset_assembled _ _ h2 h3
  have hh := humidity_expr_eq (bitbuffer.byte 1 3) (bitbuffer.byte 1 4)
  have hh165 : humidity_expr (bitbuffer.byte 1 3) (bitbuffer.byte 1 4) ≤ 165 := by omega
  have hwrap := to_int16_of_range
    (temp_offset (temp_assembled (bitbuffer.byte 1 2) (bitbuffer.byte 1 3)))
    (by omega) (by omega)
  refine ⟨⟨by omega, by omega⟩, ⟨by omega, by omega⟩, hwrap, ?_, hh165,
    to_uint8_of_lt _ (by omega), ?_, temp_assembled_emod _ _ h2 h3⟩
  · rw [test_extract_temp, ho]
  · rw [test_extract_humidity, hh]

/-- C17: two accepted buffers whose rows 1 agree on byte 0, on bit 2 of
byte 1 and on bytes 2, 3 and 4 emit records that agree under every key but
`time`: model, id, battery, channel, temperature_C and humidity. -/
theorem record_depends_on_few_bits (time_str time_str2 : String) (a b : bitbuffer_t)
    (ha : (test_callback time_str a).1 = 1) (hb : (test_callback time_str2 b).1 = 1)
    (h0 : a.byte 1 0 = b.byte 1 0)
    (h1 : (a.byte 1 1).testBit 2 = (b.byte 1 1).testBit 2)
    (h2 : a.byte 1 2 = b.byte 1 2) (h3 : a.byte 1 3 = b.byte 1 3)
    (h4 : a.byte 1 4 = b.byte 1 4) :
    (∀ k, k ≠ "time" →
        first_record_value (test_callback time_str a) k =
          first_record_value (test_callback time_str2 b) k) ∧
      (∀ k, k ∈ ["model", "id", "battery", "channel", "temperature_C", "humidity"] →
        first_record_value (test_callback time_str a) k =
          first_record_value (test_callback time_str2 b) k ∧
        first_record_value (test_callback time_str a) k ≠ none) := by
  have hgen : ∀ k, k ≠ "time" →
      first_record_value (test_callback time_str a) k =
        first_record_value (test_callback time_str2 b) k := by
    intro k hk
    rw [first_record_value_accept _ _ ha, first_record_value_accept _ _ hb]
    apply test_record_lookup_congr _ _ _ _ _ _ _ _ _ k hk
    · rw [test_extract_id, test_extract_id, h0]
    · rw [battery_low_ne_zero_iff, battery_low_ne_zero_iff, h1]
    · rw [test_extract_channel, test_extract_channel, h4]
    · rw [test_extract_temp, test_extract_temp]
      unfold temp_field
      rw [h2, h3]
    · rw [test_extract_humidity, test_extract_humidity, h3, h4]
  refine ⟨hgen, fun k hk => ?_⟩
  simp only [List.mem_cons, List.mem_singleton, List.not_mem_nil, or_false] at hk
  rcases hk with rfl | rfl | rfl | rfl | rfl | rfl
  · exact ⟨hgen _ (by decide), by rw [first_record_value_accept _ _ ha]; exact Option.some_ne_none _⟩
  · exact ⟨hgen _ (by decide), by rw [first_record_value_accept _ _ ha]; exact Option.some_ne_none _⟩
  · exact ⟨hgen _ (by decide), by rw [first_record_value_accept _ _ ha]; exact Option.some_ne_none _⟩
  · exact ⟨hgen _ (by decide), by rw [first_record_value_accept _ _ ha]; exact Option.some_ne_none _⟩
  · exact ⟨hgen _ (by decide), by rw [first_record_value_accept _ _ ha]; exact Option.some_ne_none _⟩
  · exact ⟨hgen _ (by decide), by rw [first_record_value_accept _ _ ha]; exact Option.some_ne_none _⟩

/-- C17, at the scenario buffer and a three-row variant with byte 1 equal to
0x0F in place of 0xF4 and another row 0 tail. -/
theorem record_depends_on_few_bits_witness :
    scenario_buffer.byte 1 1 ≠ scenario_variant_buffer.byte 1 1 ∧
      ((∀ k, k ≠ "time" →
          first_record_value (test_callback "2016-01-01 00:00:00" scenario_buffer) k =
            first_record_value (test_callback "2016-01-02 12:30:00" scenario_variant_buffer) k) ∧
        (∀ k, k ∈ ["model", "id", "battery", "channel", "temperature_C", "humidity"] →
          first_record_value (test_callback "2016-01-01 00:00:00" scenario_buffer) k =
            first_record_value (test_callback "2016-01-02 12:30:00" scenario_variant_buffer) k ∧
          first_record_value (test_callback "2016-01-01 00:00:00" scenario_buffer) k ≠ none)) :=
  ⟨by decide,
   record_depends_on_few_bits "2016-01-01 00:00:00" "2016-01-02 12:30:00"
    scenario_buffer scenario_variant_buffer (by decide) (by decide) (by decide) (by decide)
    (by decide) (by decide) (by decide)⟩

set_option maxRecDepth 100000 in
/-- C18, as stated, fails: the `DEVICES` list has 74 entries and `template`
is both the 9th and the 64th of them, so a name does occur twice and the list
is not free of duplicates; dropping the 64th entry leaves a list that is. -/
theorem DEVICES_lists_template_twice :
    DEVICES.length = 74 ∧
      DEVICES.get? 8 = some "template" ∧
      DEVICES.get? 63 = some "template" ∧
      DEVICES.count "template" = 2 ∧
      ¬ DEVICES.Nodup ∧
      (DEVICES.eraseIdx 63).Nodup := by
  decide

set_option maxRecDepth 100000 in
/-- C18, amended: every name of the `DEVICES` list other than `template`
occurs in it exactly once, and `template` occurs exactly twice; the 74 entries
name 73 different descriptors. -/
theorem DEVICES_unique_apart_from_template :
    (∀ name ∈ DEVICES, name ≠ "template" → DEVICES.count name = 1) ∧
      DEVICES.count "template" = 2 ∧
      DEVICES.length = 74 ∧
      DEVICES.dedup.length = 73 := by
  decide

end Rtl433
